import Mathlib

/-!
Verification development for `httpserver` (`main.go`).

The program is a Go `main` package with two handlers, `getRoot` and `getHello`,
and a `main` routine that registers them on the process-wide default router,
serves on `:8080`, and, depending on the error the listener returns, either
exits or builds a second router and serves again.

The embedding is shallow:

* Go strings are `String`; byte-level tests (first byte, last byte, prefix) are
  done on the character list.
* `error` is `Option GoError` (`none` is Go's `nil`).
* The parts of the Go standard library the program calls (`net/http`'s
  `ServeMux`, `ListenAndServe`, `errors.Is`, `fmt`, `io`, `os.Exit`) are
  modelled from their documented behaviour, restricted to what the program uses:
  patterns are literal paths, request targets are written without
  percent-escapes, and the headers the server adds on its own (`Date`,
  `Content-Length`, `Content-Type`) are left out.
* A response is what reaches the client: the status code and the body bytes
  that are sent. For a `HEAD` request the server accepts the handler's writes
  and counts them, but sends no body.
* Effects are recorded in an explicit `World`: the default router and the
  ordered trace of observable events.
* A blocking `ListenAndServe` is driven by an environment value `ListenResult`:
  the requests that arrive while it is listening and the error it finally
  returns. Requests are served one after another.
-/

namespace HttpServer

/-! ## Strings -/

/-- Go `strings.HasPrefix(s, p)`. -/
def hasPrefixStr (s p : String) : Bool :=
  p.data.isPrefixOf s.data

/-- First byte of a non-empty string, `s[0]`. -/
def firstChar (s : String) : Option Char :=
  s.data.head?

/-- Last byte of a non-empty string, `s[len(s)-1]`. -/
def lastChar (s : String) : Option Char :=
  s.data.getLast?

/-! ## Errors -/

/-- Go error values, as far as `errors.Is` and `%v` can tell them apart.
`errServerClosed` is the sentinel `http.ErrServerClosed`; `leaf` is any other
error value without an `Unwrap` method (it is never identical to the sentinel,
whatever its text); `wrap` is an error whose `Unwrap` returns `inner`. -/
inductive GoError
  | errServerClosed
  | leaf (text : String)
  | wrap (text : String) (inner : GoError)
  deriving DecidableEq, Repr

/-- Go's `error` interface type; `none` is `nil`. -/
abbrev error := Option GoError

/-- The `Error()` method: the text of an error. -/
def GoError.Error : GoError → String
  | .errServerClosed => "http: Server closed"
  | .leaf text => text
  | .wrap text _ => text

/-- The loop of `errors.Is` on a non-nil error: compare, then unwrap. -/
def GoError.is (target : GoError) : GoError → Bool
  | .errServerClosed => decide (GoError.errServerClosed = target)
  | .leaf text => decide (GoError.leaf text = target)
  | .wrap text inner => decide (GoError.wrap text inner = target) || GoError.is target inner

/-! ## Requests and responses -/

/-- The fields of `*http.Request` that the router and the handlers can see, for
a request the server has parsed and accepted: `Host` is `r.Host`, `URLHost` is
`r.URL.Host`, `Path` is `r.URL.Path`. The model covers request targets written
without percent-escapes, for which `r.URL.EscapedPath()`, the string the router
works on, is `r.URL.Path` itself. The request target `*`, which names no path,
is outside the model. -/
structure Request where
  Method : String
  Host : String
  URLHost : String
  Path : String
  RawQuery : String
  Header : List (String × String)
  Body : String
  deriving DecidableEq, Repr

/-- State of the `http.ResponseWriter` the server hands to a handler:
`reqMethod` is the method of the request being answered (`w.req.Method`),
`header` the header map as set through `w.Header()`, `status` the status code
once the header has been written (`none` before), `written` the number of body
bytes the handler has written (`w.written`), and `body` the body bytes sent to
the client. -/
structure ResponseWriter where
  reqMethod : String
  header : List (String × String)
  status : Option Nat
  written : Nat
  body : String
  deriving DecidableEq, Repr

/-- The response writer the server creates for a request. -/
def ResponseWriter.fresh (r : Request) : ResponseWriter :=
  { reqMethod := r.Method, header := [], status := none, written := 0, body := "" }

/-- `bodyAllowedForStatus(status)`: responses with status 1xx, 204 and 304 have
no body. -/
def bodyAllowedForStatus (status : Nat) : Bool :=
  if 100 ≤ status ∧ status ≤ 199 then false
  else if status = 204 then false
  else if status = 304 then false
  else true

/-- Status code the client receives: 200 unless the handler wrote another. -/
def ResponseWriter.statusCode (w : ResponseWriter) : Nat :=
  w.status.getD 200

/-- `w.Header().Set(k, v)`. -/
def ResponseWriter.setHeader (w : ResponseWriter) (k v : String) : ResponseWriter :=
  { w with header := (k, v) :: w.header.filter (fun kv => kv.1 != k) }

/-- `w.WriteHeader(code)` for a final status code; a second call is ignored. -/
def ResponseWriter.WriteHeader (w : ResponseWriter) (code : Nat) : ResponseWriter :=
  match w.status with
  | none => { w with status := some code }
  | some _ => w

/-- `w.Write(data)`: writes the header with status 200 if it has not been
written yet; an empty write ends there, and so does a write when the status
allows no body. Otherwise the bytes are counted and passed on to the
connection, which drops them when the request method is `HEAD` and sends them
as body otherwise. (A `Content-Length` set by the handler is not modelled.) -/
def ResponseWriter.Write (w : ResponseWriter) (data : String) : ResponseWriter :=
  let w1 := w.WriteHeader 200
  if data.utf8ByteSize = 0 then w1
  else if bodyAllowedForStatus w1.statusCode = false then w1
  else
    let w2 := { w1 with written := w1.written + data.utf8ByteSize }
    if w2.reqMethod = "HEAD" then w2
    else { w2 with body := w2.body ++ data }

/-! ## The router (`http.ServeMux`) -/

/-- Handlers that can be stored in, or returned by, a router: the two functions
of the program (wrapped by `http.HandlerFunc`), `http.NotFoundHandler()` and
`http.RedirectHandler(url, code)`. -/
inductive Handler
  | getRoot
  | getHello
  | notFound
  | redirect (url : String) (code : Nat)
  deriving DecidableEq, Repr

/-- One registration: handler and pattern. -/
structure muxEntry where
  h : Handler
  pattern : String
  deriving DecidableEq, Repr

/-- The router: `m` maps a pattern to its entry, `es` holds the entries whose
pattern ends in a slash, longest first, `hosts` says whether some pattern
starts with a host name. -/
structure ServeMux where
  m : List (String × muxEntry)
  es : List muxEntry
  hosts : Bool
  deriving DecidableEq, Repr

/-- The zero router: what `http.NewServeMux()` returns, and the initial value
of `http.DefaultServeMux`. -/
def ServeMux.zero : ServeMux :=
  { m := [], es := [], hosts := false }

/-- Insert an entry into `es`, keeping it sorted from longest to shortest
pattern: the entry goes before the first strictly shorter one. -/
def appendSorted (es : List muxEntry) (e : muxEntry) : List muxEntry :=
  es.takeWhile (fun x => decide (e.pattern.utf8ByteSize ≤ x.pattern.utf8ByteSize))
    ++ e :: es.dropWhile (fun x => decide (e.pattern.utf8ByteSize ≤ x.pattern.utf8ByteSize))

/-- `mux.Handle(pattern, handler)`; `none` is a panic (empty pattern, or a
pattern registered twice). -/
def ServeMux.Handle (mux : ServeMux) (pattern : String) (handler : Handler) :
    Option ServeMux :=
  if pattern = "" then none
  else if (mux.m.lookup pattern).isSome then none
  else
    let e : muxEntry := { h := handler, pattern := pattern }
    let es1 := if lastChar pattern = some '/' then appendSorted mux.es e else mux.es
    let hosts1 := if firstChar pattern ≠ some '/' then true else mux.hosts
    some { m := (pattern, e) :: mux.m, es := es1, hosts := hosts1 }

/-- `mux.HandleFunc(pattern, f)`, which is `mux.Handle(pattern, HandlerFunc(f))`. -/
def ServeMux.HandleFunc (mux : ServeMux) (pattern : String) (f : Handler) :
    Option ServeMux :=
  mux.Handle pattern f

/-- `mux.match(path)`: an exact match first, then the longest pattern ending in
a slash that is a prefix of the path. -/
def ServeMux.matchPath (mux : ServeMux) (path : String) : Option muxEntry :=
  match mux.m.lookup path with
  | some v => some v
  | none => mux.es.find? (fun e => hasPrefixStr path e.pattern)

/-- `mux.handler(host, path)`: host-specific patterns first, then generic ones,
then the not-found handler. -/
def ServeMux.handler (mux : ServeMux) (host path : String) : Handler × String :=
  let r1 := if mux.hosts then mux.matchPath (host ++ path) else none
  let r2 := match r1 with
    | some e => some e
    | none => mux.matchPath path
  match r2 with
  | some e => (e.h, e.pattern)
  | none => (Handler.notFound, "")

/-! ## Path canonicalisation (`path.Clean`, `cleanPath`) -/

/-- Split a path at every slash. -/
def splitSlash : List Char → List (List Char)
  | [] => [[]]
  | c :: cs =>
    match splitSlash cs with
    | [] => [[]]
    | seg :: segs => if c = '/' then [] :: seg :: segs else (c :: seg) :: segs

/-- The element rules of `path.Clean`: drop empty and `.` elements, let `..`
remove the element before it, drop `..` at the start of a rooted path and keep
it at the start of a relative one. `acc` is the output so far, reversed. -/
def cleanElems (rooted : Bool) : List (List Char) → List (List Char) → List (List Char)
  | acc, [] => acc.reverse
  | acc, seg :: rest =>
    if seg = [] ∨ seg = ['.'] then cleanElems rooted acc rest
    else if seg = ['.', '.'] then
      match acc with
      | [] => if rooted then cleanElems rooted [] rest else cleanElems rooted [seg] rest
      | top :: acc1 =>
        if top = ['.', '.'] then cleanElems rooted (seg :: acc) rest
        else cleanElems rooted acc1 rest
    else cleanElems rooted (seg :: acc) rest

/-- Go `path.Clean(p)`: the shortest path equivalent to `p`. -/
def pathClean (p : String) : String :=
  if p = "" then "."
  else
    let rooted := decide (firstChar p = some '/')
    let body := List.intercalate ['/'] (cleanElems rooted [] (splitSlash p.data))
    if rooted then String.mk ('/' :: body)
    else if body = [] then "."
    else String.mk body

/-- `cleanPath(p)` of `net/http`: the canonical path for `p`, rooted, without
`.` and `..` elements, keeping a trailing slash. -/
def cleanPath (p : String) : String :=
  if p = "" then "/"
  else
    let p1 := if firstChar p ≠ some '/' then "/" ++ p else p
    let np := pathClean p1
    if lastChar p1 = some '/' ∧ np ≠ "/" then
      if p1.utf8ByteSize = np.utf8ByteSize + 1 ∧ hasPrefixStr p1 np then p1
      else np ++ "/"
    else np

/-- Text of the URL with the given path and query, `u.String()`
(escaping is not modelled). -/
def urlString (path rawQuery : String) : String :=
  if rawQuery = "" then path else path ++ "?" ++ rawQuery

/-- `mux.shouldRedirectRLocked(host, path)`: the path is not registered but the
path with a slash appended is. -/
def ServeMux.shouldRedirectRLocked (mux : ServeMux) (host path : String) : Bool :=
  if (mux.m.lookup path).isSome ∨ (mux.m.lookup (host ++ path)).isSome then false
  else if path = "" then false
  else if (mux.m.lookup (path ++ "/")).isSome ∨ (mux.m.lookup (host ++ path ++ "/")).isSome then
    decide (lastChar path ≠ some '/')
  else false

/-- `stripHostPort(h)`: the host without its port, or `h` unchanged when it has
no port or `net.SplitHostPort` rejects it. -/
def stripHostPort (h : String) : String :=
  let cs := h.data
  if ¬ cs.contains ':' then h
  else
    match cs with
    | '[' :: rest =>
      let host := rest.takeWhile (fun c => c ≠ ']')
      match rest.dropWhile (fun c => c ≠ ']') with
      | ']' :: ':' :: port =>
        if port.contains ':' ∨ port.contains '[' ∨ port.contains ']' ∨ host.contains '['
        then h else String.mk host
      | _ => h
    | _ =>
      let host := ((cs.reverse.dropWhile (fun c => c ≠ ':')).drop 1).reverse
      if host.contains ':' ∨ cs.contains '[' ∨ cs.contains ']' then h else String.mk host

/-- `mux.Handler(r)`: the handler to use for the request and the pattern it
was registered under. `CONNECT` requests are not canonicalised; for all others
a path that is not canonical is answered by a temporary redirect (307) to the
canonical one. -/
def ServeMux.Handler (mux : ServeMux) (r : Request) : HttpServer.Handler × String :=
  if r.Method = "CONNECT" then
    if mux.shouldRedirectRLocked r.URLHost r.Path then
      (Handler.redirect (urlString (r.Path ++ "/") r.RawQuery) 307, r.Path ++ "/")
    else mux.handler r.Host r.Path
  else
    let host := stripHostPort r.Host
    let path := cleanPath r.Path
    if mux.shouldRedirectRLocked host path then
      (Handler.redirect (urlString (path ++ "/") r.RawQuery) 307, path ++ "/")
    else if path ≠ r.Path then
      (Handler.redirect (urlString path r.RawQuery) 307, (mux.handler host path).2)
    else mux.handler host r.Path

/-! ## The process: world, events and the sequencing of effects -/

/-- What the process does that can be seen from outside, plus the creation of
a router. -/
inductive Event
  | stdout (bytes : String)
  | newServeMux
  | listen (addr : String) (handler : Option ServeMux)
  | returned (err : error)
  | setHeader (k v : String)
  | writeHeader (code : Nat)
  | write (bytes : String)
  | served (r : Request) (w : ResponseWriter)
  deriving DecidableEq, Repr

/-- Global state of the process: `http.DefaultServeMux` and the events so far,
oldest first. -/
structure World where
  DefaultServeMux : ServeMux
  trace : List Event
  deriving DecidableEq, Repr

/-- The world at process start. -/
def World.init : World :=
  { DefaultServeMux := ServeMux.zero, trace := [] }

/-- How a piece of Go code ends: normally with a value, by `os.Exit(code)`, or
by a panic. -/
inductive Result (α : Type)
  | ok (a : α) (g : World)
  | exit (code : Nat) (g : World)
  | panic (g : World)
  deriving DecidableEq, Repr

/-- The world in which a piece of code ended. -/
def Result.world {α : Type} : Result α → World
  | .ok _ g => g
  | .exit _ g => g
  | .panic g => g

/-- Go code with a result of type `α`. -/
def Go (α : Type) : Type := World → Result α

/-- Return a value without any effect. -/
def Go.pure {α : Type} (a : α) : Go α := fun g => Result.ok a g

/-- Sequencing: an exit or a panic in the first part skips the second. -/
def Go.bind {α β : Type} (x : Go α) (f : α → Go β) : Go β := fun g =>
  match x g with
  | .ok a g1 => f a g1
  | .exit code g1 => .exit code g1
  | .panic g1 => .panic g1

instance : Monad Go where
  pure := Go.pure
  bind := Go.bind

/-- Append one event to the trace. -/
def emit (e : Event) : Go Unit := fun g =>
  Result.ok () { g with trace := g.trace ++ [e] }

/-- A panic. -/
def goPanic {α : Type} : Go α := fun g => Result.panic g

/-- `fmt.Println(s)` on standard output. -/
def fmt.Println (s : String) : Go Unit :=
  emit (Event.stdout (s ++ "\n"))

/-- The text `%v` gives for an error value. -/
def fmt.verbV : error → String
  | none => "<nil>"
  | some e => e.Error

/-- `fmt.Printf(format, v)` for a format with one `%v` verb: `before` and
`after` are the parts of the format around the verb. -/
def fmt.Printf (before : String) (v : error) (after : String) : Go Unit :=
  emit (Event.stdout (before ++ fmt.verbV v ++ after))

/-- `io.WriteString(w, s)`: one `Write` on the response writer. -/
def io.WriteString (w : ResponseWriter) (s : String) : Go ResponseWriter := do
  emit (Event.write s)
  pure (w.Write s)

/-- `os.Exit(code)`: the process ends at once. -/
def os.Exit (code : Nat) : Go Unit := fun g => Result.exit code g

/-- `errors.Is(err, target)`. -/
def errors.Is (err target : error) : Bool :=
  match err, target with
  | some e, some t => GoError.is t e
  | none, none => true
  | _, _ => false

/-- The sentinel `http.ErrServerClosed`. -/
def http.ErrServerClosed : error := some GoError.errServerClosed

/-! ## The handlers of `main.go` -/

/-- Handler `getRoot` (`main.go`, lines 21-25): print one line, write the
greeting. The request is not read. -/
def getRoot (w : ResponseWriter) (_r : Request) : Go ResponseWriter := do
  fmt.Println "Received request for /"
  io.WriteString w "Hello World\n"

/-- Handler `getHello` (`main.go`, lines 31-34). -/
def getHello (w : ResponseWriter) (_r : Request) : Go ResponseWriter := do
  fmt.Println "Received request for /hello"
  io.WriteString w "Hello from /hello endpoint\n"

/-! ## Library handlers and the server loop -/

/-- `w.Header().Set(k, v)` as an effect. -/
def wSetHeader (w : ResponseWriter) (k v : String) : Go ResponseWriter := do
  emit (Event.setHeader k v)
  pure (w.setHeader k v)

/-- `w.WriteHeader(code)` as an effect. -/
def wWriteHeader (w : ResponseWriter) (code : Nat) : Go ResponseWriter := do
  emit (Event.writeHeader code)
  pure (w.WriteHeader code)

/-- `http.Error(w, text, code)`. -/
def http.Error (w : ResponseWriter) (text : String) (code : Nat) : Go ResponseWriter := do
  let w ← wSetHeader w "Content-Type" "text/plain; charset=utf-8"
  let w ← wSetHeader w "X-Content-Type-Options" "nosniff"
  let w ← wWriteHeader w code
  io.WriteString w (text ++ "\n")

/-- `http.NotFound(w, r)`. -/
def http.NotFound (w : ResponseWriter) (_r : Request) : Go ResponseWriter :=
  http.Error w "404 page not found" 404

/-- `http.StatusText(code)` for the codes that occur. -/
def http.StatusText (code : Nat) : String :=
  if code = 200 then "OK"
  else if code = 301 then "Moved Permanently"
  else if code = 307 then "Temporary Redirect"
  else if code = 404 then "Not Found"
  else ""

/-- `http.Redirect(w, r, url, code)` for a rooted `url` (escaping is not
modelled). -/
def http.Redirect (w : ResponseWriter) (r : Request) (url : String) (code : Nat) :
    Go ResponseWriter := do
  let hadCT := (w.header.lookup "Content-Type").isSome
  let w ← wSetHeader w "Location" url
  let w ← if ¬ hadCT ∧ (r.Method = "GET" ∨ r.Method = "HEAD")
    then wSetHeader w "Content-Type" "text/html; charset=utf-8" else pure w
  let w ← wWriteHeader w code
  if ¬ hadCT ∧ r.Method = "GET" then
    io.WriteString w ("<a href=\"" ++ url ++ "\">" ++ http.StatusText code ++ "</a>.\n\n")
  else pure w

/-- Run a handler: `h.ServeHTTP(w, r)`. -/
def Handler.ServeHTTP : Handler → ResponseWriter → Request → Go ResponseWriter
  | .getRoot, w, r => HttpServer.getRoot w r
  | .getHello, w, r => HttpServer.getHello w r
  | .notFound, w, r => http.NotFound w r
  | .redirect url code, w, r => http.Redirect w r url code

/-- `mux.ServeHTTP(w, r)`: select the handler and run it. -/
def ServeMux.ServeHTTP (mux : ServeMux) (w : ResponseWriter) (r : Request) :
    Go ResponseWriter :=
  (mux.Handler r).1.ServeHTTP w r

/-- The server answering one request: a nil handler means
`http.DefaultServeMux`, read when the request is served. The handler runs on a
writer made for the request; the finished response (status, body bytes sent,
bytes written) is recorded. -/
def serverHandler (handler : Option ServeMux) (r : Request) : Go Unit := fun g =>
  let mux := match handler with
    | some m => m
    | none => g.DefaultServeMux
  (do
    let w ← mux.ServeHTTP (ResponseWriter.fresh r) r
    emit (Event.served r w)) g

/-- Serve the requests one after another. -/
def serveAll (handler : Option ServeMux) : List Request → Go Unit
  | [] => pure ()
  | r :: rs => do
    serverHandler handler r
    serveAll handler rs

/-- What the environment decides about one `ListenAndServe` call: the requests
that arrive while it blocks and the error it returns in the end. `net/http`
documents that `ListenAndServe` always returns a non-nil error, so a real run
has `err ≠ none`; `none` is admitted so that a statement can range over every
value of type `error`. -/
structure ListenResult where
  requests : List Request
  err : error
  deriving DecidableEq, Repr

/-- `http.ListenAndServe(addr, handler)`: listens, serves the requests that
arrive, and returns the error the environment gives (in a real run never
nil). -/
def http.ListenAndServe (addr : String) (handler : Option ServeMux) (env : ListenResult) :
    Go error := do
  emit (Event.listen addr handler)
  serveAll handler env.requests
  emit (Event.returned env.err)
  pure env.err

/-- `http.HandleFunc(pattern, f)`: registration on `http.DefaultServeMux`. -/
def http.HandleFunc (pattern : String) (f : Handler) : Go Unit := fun g =>
  match g.DefaultServeMux.HandleFunc pattern f with
  | some m => Result.ok () { g with DefaultServeMux := m }
  | none => Result.panic g

/-- `http.NewServeMux()`. -/
def http.NewServeMux : Go ServeMux := do
  emit Event.newServeMux
  pure ServeMux.zero

/-- `mux.HandleFunc(pattern, f)` on a local router; the updated router is
returned. -/
def muxHandleFunc (mux : ServeMux) (pattern : String) (f : Handler) : Go ServeMux :=
  match mux.HandleFunc pattern f with
  | some m => pure m
  | none => goPanic

/-! ## `main` -/

/-- Function `main` (`main.go`, lines 36-68). `first` and `second` are what the
environment does to the first and to the second `ListenAndServe`. -/
def main (first second : ListenResult) : Go Unit := do
  http.HandleFunc "/" Handler.getRoot
  http.HandleFunc "/hello" Handler.getHello
  let err ← http.ListenAndServe ":8080" none first
  if errors.Is err http.ErrServerClosed then
    fmt.Println "HTTP server has been shutdown"
  else if err ≠ none then
    fmt.Printf "Error starting HTTP server: " err "\n"
    os.Exit 1
  let mux ← http.NewServeMux
  let mux ← muxHandleFunc mux "/" Handler.getRoot
  let mux ← muxHandleFunc mux "/hello" Handler.getHello
  let _err ← http.ListenAndServe ":8080" (some mux) second
  pure ()

/-- Exit status of the process: 0 when `main` returns, the argument of
`os.Exit`, 2 after a panic. -/
def exitStatus {α : Type} : Result α → Nat
  | .ok _ _ => 0
  | .exit code _ => code
  | .panic _ => 2

/-- Run the program from process start. -/
def runMain (first second : ListenResult) : Result Unit :=
  main first second World.init

/-! ## Definitions used to state and prove the properties -/

/-- The `ListenAndServe` calls in a trace, in order: address and handler. -/
def listenCalls : List Event → List (String × Option ServeMux)
  | [] => []
  | .listen addr handler :: es => (addr, handler) :: listenCalls es
  | _ :: es => listenCalls es

/-- What was printed on standard output, chunk by chunk, in order. -/
def stdoutWrites : List Event → List String
  | [] => []
  | .stdout bytes :: es => bytes :: stdoutWrites es
  | _ :: es => stdoutWrites es

/-- The events after the first return of a `ListenAndServe` call. -/
def afterFirstReturn : List Event → List Event
  | [] => []
  | .returned _ :: es => es
  | _ :: es => afterFirstReturn es

/-- Events that occur while a request is served: the request line printed by
`getRoot` or `getHello`, the calls on the response writer, and the record of
the finished response. -/
def Event.serving : Event → Bool
  | .stdout bytes =>
    decide (bytes = "Received request for /\n") || decide (bytes = "Received request for /hello\n")
  | .setHeader _ _ => true
  | .writeHeader _ => true
  | .write _ => true
  | .served _ _ => true
  | _ => false

/-- The calls a handler makes on its response writer and on standard output:
serving events other than the record of the response. -/
def Event.byHandler : Event → Bool
  | .served _ _ => false
  | e => e.serving

/-- The final writer and the events of a handler run, as a pure function: the
run from the initial world. -/
def Handler.effect (h : Handler) (w : ResponseWriter) (r : Request) :
    ResponseWriter × List Event :=
  match h.ServeHTTP w r World.init with
  | .ok w1 g => (w1, g.trace)
  | .exit _ g => (w, g.trace)
  | .panic g => (w, g.trace)

/-- The router that the two registrations of `main` produce, written out. -/
def routes : ServeMux :=
  { m := [("/hello", { h := Handler.getHello, pattern := "/hello" }),
          ("/", { h := Handler.getRoot, pattern := "/" })],
    es := [{ h := Handler.getRoot, pattern := "/" }],
    hosts := false }

/-- The router after the first registration only. -/
def routesRootOnly : ServeMux :=
  { m := [("/", { h := Handler.getRoot, pattern := "/" })],
    es := [{ h := Handler.getRoot, pattern := "/" }],
    hosts := false }

/-- The router a listener uses: its handler argument, or the default router
when that is nil. -/
def resolve (handler : Option ServeMux) (g : World) : ServeMux :=
  match handler with
  | some m => m
  | none => g.DefaultServeMux

/-- Events of serving one request with a router. -/
def stepTrace (mux : ServeMux) (r : Request) : List Event :=
  ((mux.Handler r).1.effect (ResponseWriter.fresh r) r).2 ++
    [Event.served r ((mux.Handler r).1.effect (ResponseWriter.fresh r) r).1]

/-- Events of serving a list of requests with a router. -/
def serveTrace (mux : ServeMux) : List Request → List Event
  | [] => []
  | r :: rs => stepTrace mux r ++ serveTrace mux rs

/-- Events of the first listener in a run of `main`. -/
def firstTrace (first : ListenResult) : List Event :=
  Event.listen ":8080" none :: (serveTrace routes first.requests ++ [Event.returned first.err])

/-- Events of the second listener in a run of `main`. -/
def secondTrace (second : ListenResult) : List Event :=
  Event.newServeMux :: Event.listen ":8080" (some routes) ::
    (serveTrace routes second.requests ++ [Event.returned second.err])

/-- The handler and pattern the two registrations give for a path. -/
def routeOf (path : String) : Handler × String :=
  if path = "/hello" then (Handler.getHello, "/hello")
  else if firstChar path = some '/' then (Handler.getRoot, "/")
  else (Handler.notFound, "")

/-- Sample request: `GET /`. -/
def sampleGetRoot : Request :=
  { Method := "GET", Host := "localhost:8080", URLHost := "", Path := "/", RawQuery := "",
    Header := [], Body := "" }

/-- Sample request: `POST /hello` with a body. -/
def samplePostHello : Request :=
  { Method := "POST", Host := "localhost:8080", URLHost := "", Path := "/hello", RawQuery := "",
    Header := [("Content-Type", "text/plain")], Body := "ping" }

/-- Sample request: `GET /missing`. -/
def sampleGetMissing : Request :=
  { Method := "GET", Host := "localhost:8080", URLHost := "", Path := "/missing", RawQuery := "",
    Header := [], Body := "" }

/-- Sample request: `HEAD /`. -/
def sampleHeadRoot : Request :=
  { Method := "HEAD", Host := "localhost:8080", URLHost := "", Path := "/", RawQuery := "",
    Header := [], Body := "" }

/-- Sample request: `HEAD /hello`. -/
def sampleHeadHello : Request :=
  { Method := "HEAD", Host := "localhost:8080", URLHost := "", Path := "/hello", RawQuery := "",
    Header := [], Body := "" }

/-- Sample error: the port is taken. -/
def sampleBindError : GoError :=
  GoError.leaf "listen tcp :8080: bind: address already in use"

/-! ## Lemmas -/

theorem bind_apply {α β : Type} (x : Go α) (f : α → Go β) (g : World) :
    (x >>= f) g = Go.bind x f g := rfl

theorem pure_apply {α : Type} (a : α) (g : World) :
    (pure a : Go α) g = Result.ok a g := rfl

theorem Handler.ServeHTTP_eq (h : Handler) (w : ResponseWriter) (r : Request) (g : World) :
    h.ServeHTTP w r g =
      Result.ok (h.effect w r).1 { g with trace := g.trace ++ (h.effect w r).2 } := by
  cases h with
  | redirect url code =>
    simp only [Handler.effect, Handler.ServeHTTP, http.Redirect]
    split_ifs <;>
    simp [wSetHeader, wWriteHeader, io.WriteString, emit,
      bind_apply, pure_apply, Go.bind, World.init]
  | _ =>
    simp [Handler.effect, Handler.ServeHTTP, HttpServer.getRoot, HttpServer.getHello,
      http.NotFound, http.Error,
      wSetHeader, wWriteHeader, fmt.Println, io.WriteString, emit,
      bind_apply, pure_apply, Go.bind, World.init]

theorem handleFunc_root : ServeMux.zero.HandleFunc "/" Handler.getRoot = some routesRootOnly := by
  decide

theorem handleFunc_hello :
    routesRootOnly.HandleFunc "/hello" Handler.getHello = some routes := by
  decide

theorem serverHandler_eq (handler : Option ServeMux) (r : Request) (g : World) :
    serverHandler handler r g =
      Result.ok () { g with trace := g.trace ++ stepTrace (resolve handler g) r } := by
  cases handler <;>
    simp [serverHandler, resolve, stepTrace, ServeMux.ServeHTTP, Handler.ServeHTTP_eq,
      bind_apply, Go.bind, emit]

theorem serveAll_eq (handler : Option ServeMux) (rs : List Request) (g : World) :
    serveAll handler rs g =
      Result.ok () { g with trace := g.trace ++ serveTrace (resolve handler g) rs } := by
  induction rs generalizing g with
  | nil => simp [serveAll, serveTrace, pure_apply]
  | cons r rs ih =>
    simp only [serveAll, bind_apply, Go.bind, serverHandler_eq, ih, serveTrace]
    cases handler <;> simp [resolve]

theorem listenAndServe_eq (addr : String) (handler : Option ServeMux) (env : ListenResult)
    (g : World) :
    http.ListenAndServe addr handler env g =
      Result.ok env.err { g with trace := (g.trace ++ Event.listen addr handler ::
        (serveTrace (resolve handler g) env.requests ++ [Event.returned env.err])) } := by
  simp only [http.ListenAndServe, bind_apply, Go.bind, emit, serveAll_eq, pure_apply]
  cases handler <;> simp [resolve]

theorem runMain_eq (first second : ListenResult) :
    runMain first second =
      if errors.Is first.err http.ErrServerClosed then
        Result.ok () { DefaultServeMux := routes, trace := (firstTrace first ++
          Event.stdout "HTTP server has been shutdown\n" :: secondTrace second) }
      else if first.err ≠ none then
        Result.exit 1 { DefaultServeMux := routes, trace := (firstTrace first ++
          [Event.stdout ("Error starting HTTP server: " ++ fmt.verbV first.err ++ "\n")]) }
      else
        Result.ok () { DefaultServeMux := routes, trace := firstTrace first ++ secondTrace second } := by
  simp only [runMain, main, bind_apply, Go.bind, http.HandleFunc, World.init, handleFunc_root,
    handleFunc_hello, listenAndServe_eq, resolve]
  split_ifs <;>
    simp [bind_apply, Go.bind, fmt.Println, fmt.Printf, os.Exit, emit, http.NewServeMux,
      muxHandleFunc, handleFunc_root, handleFunc_hello, listenAndServe_eq, resolve, pure_apply,
      firstTrace, secondTrace]

theorem append_slash_ne_hello (s : String) : s ++ "/" ≠ "/hello" := by
  intro h
  have h1 := congrArg (fun t => t.data.getLast?) h
  simp at h1

theorem append_slash_eq_slash (s : String) (h : s ++ "/" = "/") : s = "" := by
  have h1 := congrArg String.data h
  simp at h1
  exact String.ext h1

theorem append_eq_empty_right (s t : String) (h : s ++ t = "") : t = "" := by
  have h1 := congrArg String.data h
  simp at h1
  exact String.ext h1.2

theorem hasPrefixStr_slash (p : String) :
    hasPrefixStr p "/" = decide (firstChar p = some '/') := by
  rcases p with ⟨cs⟩
  cases cs with
  | nil => simp [hasPrefixStr, firstChar]
  | cons c cs =>
    by_cases hc : c = '/'
    · subst hc; simp [hasPrefixStr, firstChar, List.isPrefixOf]
    · have hc2 : ('/' == c) = false := by
        simp only [beq_eq_false_iff_ne, ne_eq]
        exact fun h => hc h.symm
      simp [hasPrefixStr, firstChar, List.isPrefixOf, hc, hc2]

theorem routes_lookup (p : String) :
    routes.m.lookup p =
      if p = "/hello" then some { h := Handler.getHello, pattern := "/hello" }
      else if p = "/" then some { h := Handler.getRoot, pattern := "/" }
      else none := by
  by_cases h1 : p = "/hello"
  · subst h1; rfl
  · by_cases h2 : p = "/"
    · subst h2; rfl
    · have b1 : (p == "/hello") = false := by simp [h1]
      have b2 : (p == "/") = false := by simp [h2]
      simp [routes, List.lookup, b1, b2, h1, h2]

theorem routes_shouldRedirect (host path : String) :
    routes.shouldRedirectRLocked host path = false := by
  unfold ServeMux.shouldRedirectRLocked
  simp only [routes_lookup]
  by_cases hp : path = ""
  · simp [hp]
  · have h1 : path ++ "/" ≠ "/" := fun h => hp (append_slash_eq_slash _ h)
    have h2 : host ++ path ++ "/" ≠ "/" := fun h =>
      hp (append_eq_empty_right _ _ (append_slash_eq_slash _ h))
    simp [hp, h1, h2, append_slash_ne_hello]

theorem routes_handler (host path : String) : routes.handler host path = routeOf path := by
  unfold ServeMux.handler ServeMux.matchPath routeOf
  simp only [routes_lookup]
  by_cases h1 : path = "/hello"
  · simp [h1, routes]
  · by_cases h2 : path = "/"
    · subst h2; simp [routes, firstChar]
    · by_cases h3 : firstChar path = some '/'
      · simp [h1, h2, h3, routes, hasPrefixStr_slash]
      · simp [h1, h2, h3, routes, hasPrefixStr_slash]

theorem routes_Handler (r : Request) :
    routes.Handler r =
      if r.Method = "CONNECT" then routeOf r.Path
      else if cleanPath r.Path ≠ r.Path then
        (Handler.redirect (urlString (cleanPath r.Path) r.RawQuery) 307,
          (routeOf (cleanPath r.Path)).2)
      else routeOf r.Path := by
  unfold ServeMux.Handler
  simp only [routes_shouldRedirect, routes_handler]
  simp

theorem effect_getRoot (w : ResponseWriter) (r : Request) :
    Handler.getRoot.effect w r =
      (w.Write "Hello World\n",
        [Event.stdout "Received request for /\n", Event.write "Hello World\n"]) := rfl

theorem effect_getHello (w : ResponseWriter) (r : Request) :
    Handler.getHello.effect w r =
      (w.Write "Hello from /hello endpoint\n",
        [Event.stdout "Received request for /hello\n",
          Event.write "Hello from /hello endpoint\n"]) := rfl

theorem effect_byHandler (h : Handler) (w : ResponseWriter) (r : Request) :
    ∀ e ∈ (h.effect w r).2, e.byHandler = true := by
  cases h with
  | redirect url code =>
    simp only [Handler.effect, Handler.ServeHTTP, http.Redirect]
    split_ifs <;>
    simp [wSetHeader, wWriteHeader, io.WriteString, emit,
      bind_apply, pure_apply, Go.bind, World.init, Event.byHandler, Event.serving]
  | _ =>
    simp [Handler.effect, Handler.ServeHTTP, HttpServer.getRoot, HttpServer.getHello,
      http.NotFound, http.Error,
      wSetHeader, wWriteHeader, fmt.Println, io.WriteString, emit,
      bind_apply, pure_apply, Go.bind, World.init, Event.byHandler, Event.serving]

theorem byHandler_serving (e : Event) (h : e.byHandler = true) : e.serving = true := by
  cases e <;> simp_all [Event.byHandler]

theorem stepTrace_serving (mux : ServeMux) (r : Request) :
    ∀ e ∈ stepTrace mux r, e.serving = true := by
  intro e he
  simp only [stepTrace, List.mem_append, List.mem_singleton] at he
  rcases he with he | he
  · exact byHandler_serving e (effect_byHandler _ _ _ e he)
  · subst he; rfl

theorem serveTrace_serving (mux : ServeMux) (rs : List Request) :
    ∀ e ∈ serveTrace mux rs, e.serving = true := by
  induction rs with
  | nil => simp [serveTrace]
  | cons r rs ih =>
    intro e he
    simp only [serveTrace, List.mem_append] at he
    rcases he with he | he
    · exact stepTrace_serving mux r e he
    · exact ih e he

theorem served_mem_stepTrace (mux : ServeMux) (r r1 : Request) (w : ResponseWriter) :
    Event.served r w ∈ stepTrace mux r1 ↔
      r = r1 ∧ w = ((mux.Handler r1).1.effect (ResponseWriter.fresh r1) r1).1 := by
  simp only [stepTrace, List.mem_append, List.mem_singleton]
  constructor
  · rintro (h | h)
    · have := effect_byHandler _ _ _ _ h
      simp [Event.byHandler] at this
    · simpa using h
  · rintro ⟨rfl, rfl⟩
    exact Or.inr rfl

theorem served_mem_serveTrace (mux : ServeMux) (rs : List Request) (r : Request)
    (w : ResponseWriter) :
    Event.served r w ∈ serveTrace mux rs ↔
      r ∈ rs ∧ w = ((mux.Handler r).1.effect (ResponseWriter.fresh r) r).1 := by
  induction rs with
  | nil => simp [serveTrace]
  | cons r1 rs ih =>
    simp only [serveTrace, List.mem_append, served_mem_stepTrace, ih, List.mem_cons]
    constructor
    · rintro (⟨rfl, h⟩ | ⟨h1, h2⟩)
      · exact ⟨Or.inl rfl, h⟩
      · exact ⟨Or.inr h1, h2⟩
    · rintro ⟨rfl | h1, h2⟩
      · exact Or.inl ⟨rfl, h2⟩
      · exact Or.inr ⟨h1, h2⟩

theorem listenCalls_append (l1 l2 : List Event) :
    listenCalls (l1 ++ l2) = listenCalls l1 ++ listenCalls l2 := by
  induction l1 with
  | nil => rfl
  | cons e l1 ih => cases e <;> simp [listenCalls, ih]

theorem stdoutWrites_append (l1 l2 : List Event) :
    stdoutWrites (l1 ++ l2) = stdoutWrites l1 ++ stdoutWrites l2 := by
  induction l1 with
  | nil => rfl
  | cons e l1 ih => cases e <;> simp [stdoutWrites, ih]

theorem listenCalls_serving (l : List Event) (h : ∀ e ∈ l, e.serving = true) :
    listenCalls l = [] := by
  induction l with
  | nil => rfl
  | cons e l ih =>
    have he := h e (List.mem_cons_self _ _)
    have hl := ih (fun x hx => h x (List.mem_cons_of_mem _ hx))
    cases e <;> simp_all [listenCalls, Event.serving]

theorem afterFirstReturn_serving (l rest : List Event) (h : ∀ e ∈ l, e.serving = true) :
    afterFirstReturn (l ++ rest) = afterFirstReturn rest := by
  induction l with
  | nil => rfl
  | cons e l ih =>
    have he := h e (List.mem_cons_self _ _)
    have hl := ih (fun x hx => h x (List.mem_cons_of_mem _ hx))
    cases e <;> simp_all [afterFirstReturn, Event.serving]

theorem not_mem_serving (l : List Event) (h : ∀ e ∈ l, e.serving = true) (e : Event)
    (he : e.serving = false) : e ∉ l := by
  intro hmem
  rw [h e hmem] at he
  exact Bool.noConfusion he

theorem firstChar_slash_append (p : String) : firstChar ("/" ++ p) = some '/' := by
  simp [firstChar]

theorem pathClean_rooted (p : String) (h : firstChar p = some '/') :
    ∃ body : List Char, pathClean p = String.mk ('/' :: body) := by
  have hne : p ≠ "" := by
    intro h0
    subst h0
    simp [firstChar] at h
  unfold pathClean
  simp only [hne, if_false, h, decide_True, if_true]
  exact ⟨_, rfl⟩

theorem cleanPath_rooted (p : String) : firstChar (cleanPath p) = some '/' := by
  unfold cleanPath
  by_cases h0 : p = ""
  · simp [h0, firstChar]
  · simp only [h0, if_false]
    have hp1 : firstChar (if firstChar p ≠ some '/' then "/" ++ p else p) = some '/' := by
      by_cases h1 : firstChar p = some '/'
      · simp [h1]
      · simp [h1, firstChar_slash_append]
    generalize (if firstChar p ≠ some '/' then "/" ++ p else p) = p1 at hp1 ⊢
    obtain ⟨body, hbody⟩ := pathClean_rooted _ hp1
    split_ifs with c1 c2
    · exact hp1
    · rw [hbody]; simp [firstChar]
    · rw [hbody]; simp [firstChar]

theorem canonical_rooted (p : String) (h : cleanPath p = p) : firstChar p = some '/' := by
  rw [← h]
  exact cleanPath_rooted p

theorem routes_Handler_root (r : Request) (h : r.Path = "/") :
    routes.Handler r = (Handler.getRoot, "/") := by
  have hc : cleanPath "/" = "/" := by decide
  have hr : routeOf "/" = (Handler.getRoot, "/") := by decide
  rw [routes_Handler, h]
  simp [hc, hr]

theorem routes_Handler_hello (r : Request) (h : r.Path = "/hello") :
    routes.Handler r = (Handler.getHello, "/hello") := by
  have hc : cleanPath "/hello" = "/hello" := by decide
  have hr : routeOf "/hello" = (Handler.getHello, "/hello") := by decide
  rw [routes_Handler, h]
  simp [hc, hr]

theorem routes_Handler_canonical (r : Request) (hc : cleanPath r.Path = r.Path)
    (hne : r.Path ≠ "/hello") : routes.Handler r = (Handler.getRoot, "/") := by
  have hr : routeOf r.Path = (Handler.getRoot, "/") := by
    simp [routeOf, hne, canonical_rooted _ hc]
  rw [routes_Handler]
  simp [hc, hr]

theorem exitStatus_run (first second : ListenResult) :
    exitStatus (runMain first second) =
      if errors.Is first.err http.ErrServerClosed = false ∧ first.err ≠ none then 1 else 0 := by
  rw [runMain_eq]
  split_ifs <;> simp_all [exitStatus]

theorem served_mem_run (first second : ListenResult) (r : Request) (w : ResponseWriter) :
    Event.served r w ∈ (runMain first second).world.trace ↔
      (r ∈ first.requests ∨
        ((errors.Is first.err http.ErrServerClosed = true ∨ first.err = none) ∧
          r ∈ second.requests)) ∧
      w = ((routes.Handler r).1.effect (ResponseWriter.fresh r) r).1 := by
  rw [runMain_eq]
  split_ifs <;>
    simp [Result.world, firstTrace, secondTrace, served_mem_serveTrace, *] <;> tauto

theorem routers_run (first second : ListenResult) :
    (runMain first second).world.DefaultServeMux = routes := by
  rw [runMain_eq]
  split_ifs <;> rfl

theorem listenCalls_run (first second : ListenResult) :
    listenCalls (runMain first second).world.trace =
      if errors.Is first.err http.ErrServerClosed = false ∧ first.err ≠ none
      then [(":8080", none)]
      else [(":8080", none), (":8080", some routes)] := by
  have h1 := listenCalls_serving _ (serveTrace_serving routes first.requests)
  have h2 := listenCalls_serving _ (serveTrace_serving routes second.requests)
  rw [runMain_eq]
  split_ifs <;>
    simp_all [Result.world, firstTrace, secondTrace, listenCalls_append, listenCalls]

theorem listened_router (first second : ListenResult) (addr : String) (mux : ServeMux)
    (hmem : (addr, some mux) ∈ listenCalls (runMain first second).world.trace) :
    mux = routes ∧ addr = ":8080" := by
  rw [listenCalls_run] at hmem
  split_ifs at hmem <;> simp at hmem
  exact ⟨hmem.2, hmem.1⟩

/-- What a run of the program does with a request, given the handler the two
registrations select for it and the response that handler produces. -/
theorem response_of_route (first second : ListenResult) (r : Request) (h : Handler)
    (pat : String) (w0 : ResponseWriter) (hroute : routes.Handler r = (h, pat))
    (hw : (h.effect (ResponseWriter.fresh r) r).1 = w0) :
    (runMain first second).world.DefaultServeMux.Handler r = (h, pat) ∧
    (∀ addr mux, (addr, some mux) ∈ listenCalls (runMain first second).world.trace →
      mux.Handler r = (h, pat)) ∧
    (∀ w, Event.served r w ∈ (runMain first second).world.trace → w = w0) ∧
    (r ∈ first.requests → Event.served r w0 ∈ (runMain first second).world.trace) ∧
    (exitStatus (runMain first second) = 0 → r ∈ second.requests →
      Event.served r w0 ∈ (runMain first second).world.trace) := by
  have hw1 : ((routes.Handler r).1.effect (ResponseWriter.fresh r) r).1 = w0 := by
    rw [hroute]; exact hw
  refine ⟨?_, ?_, ?_, ?_, ?_⟩
  · rw [routers_run, hroute]
  · intro addr mux hmem
    rw [(listened_router first second addr mux hmem).1, hroute]
  · intro w hmem
    rw [served_mem_run, hw1] at hmem
    exact hmem.2
  · intro hmem
    rw [served_mem_run, hw1]
    exact ⟨Or.inl hmem, rfl⟩
  · intro hexit hmem
    rw [served_mem_run, hw1]
    rw [exitStatus_run] at hexit
    refine ⟨Or.inr ⟨?_, hmem⟩, rfl⟩
    by_cases h1 : errors.Is first.err http.ErrServerClosed = true
    · exact Or.inl h1
    · by_cases h2 : first.err = none
      · exact Or.inr h2
      · simp [h1, h2] at hexit

/-! ## The handlers -/

/-- C9: each handler ignores its request. From any world and with any writer,
`getRoot` prints the one line `Received request for /` and then makes the one
write of `Hello World\n`, and `getHello` prints `Received request for /hello`
and then writes `Hello from /hello endpoint\n`; nothing else happens (no status
code or header is set, the default router is untouched), and two requests give
the same result. -/
theorem handlers_ignore_request (w : ResponseWriter) (g : World) (r1 r2 : Request) :
    getRoot w r1 g = Result.ok (w.Write "Hello World\n")
      { g with trace := (g.trace ++
        [Event.stdout "Received request for /\n", Event.write "Hello World\n"]) } ∧
    getHello w r1 g = Result.ok (w.Write "Hello from /hello endpoint\n")
      { g with trace := (g.trace ++
        [Event.stdout "Received request for /hello\n",
          Event.write "Hello from /hello endpoint\n"]) } ∧
    getRoot w r1 g = getRoot w r2 g ∧
    getHello w r1 g = getHello w r2 g := by
  refine ⟨?_, ?_, rfl, rfl⟩ <;>
    simp [getRoot, getHello, fmt.Println, io.WriteString, emit, bind_apply, pure_apply, Go.bind]

/-! ## Routing -/

theorem write_fresh (r : Request) (data : String) (n : Nat)
    (hn : data.utf8ByteSize = n) (hpos : n ≠ 0) :
    (ResponseWriter.fresh r).Write data =
      { reqMethod := r.Method, header := [], status := some 200, written := n,
        body := if r.Method = "HEAD" then "" else data } := by
  subst hn
  have hbody : ("" : String) ++ data = data := String.ext (by simp)
  by_cases hm : r.Method = "HEAD"
  · simp [ResponseWriter.Write, ResponseWriter.WriteHeader, ResponseWriter.fresh,
      ResponseWriter.statusCode, bodyAllowedForStatus, hpos, hm]
  · simp [ResponseWriter.Write, ResponseWriter.WriteHeader, ResponseWriter.fresh,
      ResponseWriter.statusCode, bodyAllowedForStatus, hpos, hm, hbody]

/-- C1, as stated, fails for the method `HEAD`: `HEAD /` is routed to
`getRoot`, which prints its line and writes its 12 bytes, and the response has
status 200, but the server sends no body for a `HEAD` request, so the body is
empty and not `Hello World\n`. -/
theorem head_root_has_no_body :
    sampleHeadRoot.Path = "/" ∧
    (runMain { requests := [sampleHeadRoot], err := http.ErrServerClosed }
        { requests := [], err := some sampleBindError }).world.trace =
      [Event.listen ":8080" none,
        Event.stdout "Received request for /\n",
        Event.write "Hello World\n",
        Event.served sampleHeadRoot
          { reqMethod := "HEAD", header := [], status := some 200, written := 12, body := "" },
        Event.returned http.ErrServerClosed,
        Event.stdout "HTTP server has been shutdown\n",
        Event.newServeMux,
        Event.listen ":8080" (some routes),
        Event.returned (some sampleBindError)] ∧
    ("" : String) ≠ "Hello World\n" := by
  refine ⟨by decide, ?_, by decide⟩
  decide

/-- C1, amended: in every run of the program, a request whose path is exactly
`/` (whatever its method, headers and body) is routed to `getRoot` by the
default router and by every router handed to a listener; every response
recorded for it has status 200, set by the write alone, with the 12 bytes of
`Hello World\n` written by the handler; the body sent is exactly
`Hello World\n`, except for the method `HEAD`, where no body is sent; and such
a request arriving at the first listener, or at the second one when the process
has not exited, is answered. -/
theorem root_path_response (first second : ListenResult) (r : Request)
    (hpath : r.Path = "/") :
    (runMain first second).world.DefaultServeMux.Handler r = (Handler.getRoot, "/") ∧
    (∀ addr mux, (addr, some mux) ∈ listenCalls (runMain first second).world.trace →
      mux.Handler r = (Handler.getRoot, "/")) ∧
    (∀ w, Event.served r w ∈ (runMain first second).world.trace →
      w = { reqMethod := r.Method, header := [], status := some 200, written := 12,
            body := if r.Method = "HEAD" then "" else "Hello World\n" }) ∧
    (r ∈ first.requests →
      Event.served r
        { reqMethod := r.Method, header := [], status := some 200, written := 12,
          body := if r.Method = "HEAD" then "" else "Hello World\n" } ∈
        (runMain first second).world.trace) ∧
    (exitStatus (runMain first second) = 0 → r ∈ second.requests →
      Event.served r
        { reqMethod := r.Method, header := [], status := some 200, written := 12,
          body := if r.Method = "HEAD" then "" else "Hello World\n" } ∈
        (runMain first second).world.trace) :=
  response_of_route first second r Handler.getRoot "/" _ (routes_Handler_root r hpath)
    (write_fresh r "Hello World\n" 12 (by decide) (by decide))

/-- Witness for the amended C1: `GET /` arriving at the first listener gets
the body `Hello World\n` with status 200. -/
theorem root_path_response_witness :
    sampleGetRoot.Path = "/" ∧
    Event.served sampleGetRoot
      { reqMethod := "GET", header := [], status := some 200, written := 12,
        body := "Hello World\n" } ∈
      (runMain { requests := [sampleGetRoot], err := http.ErrServerClosed }
        { requests := [], err := some sampleBindError }).world.trace :=
  ⟨rfl, (root_path_response { requests := [sampleGetRoot], err := http.ErrServerClosed }
    { requests := [], err := some sampleBindError } sampleGetRoot rfl).2.2.2.1 (by simp)⟩

/-- C2, as stated, fails for the method `HEAD`: `HEAD /hello` is routed to
`getHello`, which prints its line and writes its 27 bytes, and the response has
status 200, but no body is sent for a `HEAD` request, so the body is empty and
not `Hello from /hello endpoint\n`. -/
theorem head_hello_has_no_body :
    sampleHeadHello.Path = "/hello" ∧
    (runMain { requests := [sampleHeadHello], err := http.ErrServerClosed }
        { requests := [], err := some sampleBindError }).world.trace =
      [Event.listen ":8080" none,
        Event.stdout "Received request for /hello\n",
        Event.write "Hello from /hello endpoint\n",
        Event.served sampleHeadHello
          { reqMethod := "HEAD", header := [], status := some 200, written := 27, body := "" },
        Event.returned http.ErrServerClosed,
        Event.stdout "HTTP server has been shutdown\n",
        Event.newServeMux,
        Event.listen ":8080" (some routes),
        Event.returned (some sampleBindError)] ∧
    ("" : String) ≠ "Hello from /hello endpoint\n" := by
  refine ⟨by decide, ?_, by decide⟩
  decide

/-- C2, amended: in every run of the program, a request whose path is exactly
`/hello` (whatever its method, headers and body) is routed to `getHello` under
the pattern `/hello`, not to the catch-all `/`, by the default router and by
every router handed to a listener; every response recorded for it has status
200 with the 27 bytes of `Hello from /hello endpoint\n` written by the handler;
the body sent is exactly `Hello from /hello endpoint\n`, except for the method
`HEAD`, where no body is sent; and such a request arriving at the first
listener, or at the second one when the process has not exited, is answered. -/
theorem hello_path_response (first second : ListenResult) (r : Request)
    (hpath : r.Path = "/hello") :
    (runMain first second).world.DefaultServeMux.Handler r = (Handler.getHello, "/hello") ∧
    (∀ addr mux, (addr, some mux) ∈ listenCalls (runMain first second).world.trace →
      mux.Handler r = (Handler.getHello, "/hello")) ∧
    (∀ w, Event.served r w ∈ (runMain first second).world.trace →
      w = { reqMethod := r.Method, header := [], status := some 200, written := 27,
            body := if r.Method = "HEAD" then "" else "Hello from /hello endpoint\n" }) ∧
    (r ∈ first.requests →
      Event.served r
        { reqMethod := r.Method, header := [], status := some 200, written := 27,
          body := if r.Method = "HEAD" then "" else "Hello from /hello endpoint\n" } ∈
        (runMain first second).world.trace) ∧
    (exitStatus (runMain first second) = 0 → r ∈ second.requests →
      Event.served r
        { reqMethod := r.Method, header := [], status := some 200, written := 27,
          body := if r.Method = "HEAD" then "" else "Hello from /hello endpoint\n" } ∈
        (runMain first second).world.trace) :=
  response_of_route first second r Handler.getHello "/hello" _ (routes_Handler_hello r hpath)
    (write_fresh r "Hello from /hello endpoint\n" 27 (by decide) (by decide))

/-- Witness for the amended C2: `POST /hello` with a body, arriving at the
first listener, gets the body `Hello from /hello endpoint\n` with status 200. -/
theorem hello_path_response_witness :
    samplePostHello.Path = "/hello" ∧
    Event.served samplePostHello
      { reqMethod := "POST", header := [], status := some 200, written := 27,
        body := "Hello from /hello endpoint\n" } ∈
      (runMain { requests := [samplePostHello], err := http.ErrServerClosed }
        { requests := [], err := some sampleBindError }).world.trace :=
  ⟨rfl, (hello_path_response { requests := [samplePostHello], err := http.ErrServerClosed }
    { requests := [], err := some sampleBindError } samplePostHello rfl).2.2.2.1 (by simp)⟩

/-- C3, the code at the failing input: `GET /missing` is neither `/` nor
`/hello`, yet the run that receives it calls `getRoot`, which prints
`Received request for /` and writes `Hello World\n`; the recorded response has
status 200 and that body, not a 404. -/
theorem missing_path_is_not_404 :
    sampleGetMissing.Path ≠ "/" ∧ sampleGetMissing.Path ≠ "/hello" ∧
    (runMain { requests := [sampleGetMissing], err := http.ErrServerClosed }
        { requests := [], err := some sampleBindError }).world.trace =
      [Event.listen ":8080" none,
        Event.stdout "Received request for /\n",
        Event.write "Hello World\n",
        Event.served sampleGetMissing
          { reqMethod := "GET", header := [], status := some 200, written := 12,
            body := "Hello World\n" },
        Event.returned http.ErrServerClosed,
        Event.stdout "HTTP server has been shutdown\n",
        Event.newServeMux,
        Event.listen ":8080" (some routes),
        Event.returned (some sampleBindError)] ∧
    ResponseWriter.statusCode
      { reqMethod := "GET", header := [], status := some 200, written := 12,
        body := "Hello World\n" } ≠ 404 := by
  refine ⟨by decide, by decide, ?_, by decide⟩
  decide

theorem error_line_ne_shutdown_line (t : String) :
    "Error starting HTTP server: " ++ t ++ "\n" ≠ "HTTP server has been shutdown\n" := by
  intro h
  have h1 := congrArg (fun s => s.data.head?) h
  simp at h1

theorem afterFirstReturn_firstTrace (first : ListenResult) (rest : List Event) :
    afterFirstReturn (firstTrace first ++ rest) = rest := by
  have h := afterFirstReturn_serving (serveTrace routes first.requests)
    (Event.returned first.err :: rest) (serveTrace_serving routes first.requests)
  simpa [firstTrace, afterFirstReturn] using h

theorem shutdown_line_not_in_firstTrace (first : ListenResult) :
    Event.stdout "HTTP server has been shutdown\n" ∉ firstTrace first := by
  have h := not_mem_serving _ (serveTrace_serving routes first.requests)
    (Event.stdout "HTTP server has been shutdown\n") (by decide)
  simpa [firstTrace] using h

theorem newServeMux_not_in_firstTrace (first : ListenResult) :
    Event.newServeMux ∉ firstTrace first := by
  have h := not_mem_serving _ (serveTrace_serving routes first.requests)
    Event.newServeMux (by decide)
  simpa [firstTrace] using h

/-! ## `main` after the first listener returns -/

/-- C4: when the first `ListenAndServe` returns a non-nil error `e` that is not
and does not wrap `http.ErrServerClosed`, the process ends by `os.Exit(1)`;
after the listener returned, `main` prints `Error starting HTTP server: `
followed by the text of `e` and a newline, and does nothing else; the shutdown
line is never printed, no router is created, and the first listener is the
only one started. -/
theorem start_error_exits (first second : ListenResult) (e : GoError)
    (herr : first.err = some e)
    (hnot : errors.Is first.err http.ErrServerClosed = false) :
    runMain first second = Result.exit 1 (runMain first second).world ∧
    exitStatus (runMain first second) = 1 ∧
    afterFirstReturn (runMain first second).world.trace =
      [Event.stdout ("Error starting HTTP server: " ++ e.Error ++ "\n")] ∧
    Event.stdout "HTTP server has been shutdown\n" ∉ (runMain first second).world.trace ∧
    Event.newServeMux ∉ (runMain first second).world.trace ∧
    listenCalls (runMain first second).world.trace = [(":8080", none)] := by
  have hne : first.err ≠ none := by rw [herr]; simp
  have hrun : runMain first second = Result.exit 1
      { DefaultServeMux := routes, trace := (firstTrace first ++
        [Event.stdout ("Error starting HTTP server: " ++ e.Error ++ "\n")]) } := by
    rw [runMain_eq, if_neg (by simp [hnot]), if_pos hne, herr]
    rfl
  refine ⟨?_, ?_, ?_, ?_, ?_, ?_⟩
  · rw [hrun]; rfl
  · rw [hrun]; rfl
  · rw [hrun]; exact afterFirstReturn_firstTrace first _
  · rw [hrun]
    simp only [Result.world, List.mem_append, List.mem_singleton, not_or]
    refine ⟨shutdown_line_not_in_firstTrace first, ?_⟩
    intro h
    injection h with h1
    exact error_line_ne_shutdown_line _ h1.symm
  · rw [hrun]
    simp only [Result.world, List.mem_append, List.mem_singleton, not_or]
    exact ⟨newServeMux_not_in_firstTrace first, by simp⟩
  · rw [listenCalls_run]
    simp [hnot, hne]

/-- Witness for C4: the port is already in use. -/
theorem start_error_exits_witness :
    errors.Is (some sampleBindError) http.ErrServerClosed = false ∧
    exitStatus (runMain { requests := [], err := some sampleBindError }
      { requests := [sampleGetRoot], err := none }) = 1 ∧
    afterFirstReturn (runMain { requests := [], err := some sampleBindError }
      { requests := [sampleGetRoot], err := none }).world.trace =
      [Event.stdout ("Error starting HTTP server: " ++ sampleBindError.Error ++ "\n")] :=
  ⟨by decide,
    (start_error_exits { requests := [], err := some sampleBindError }
      { requests := [sampleGetRoot], err := none } sampleBindError rfl (by decide)).2.1,
    (start_error_exits { requests := [], err := some sampleBindError }
      { requests := [sampleGetRoot], err := none } sampleBindError rfl (by decide)).2.2.1⟩

/-- C5: when the first `ListenAndServe` returns an error that is
`http.ErrServerClosed`, `main` does not exit: after the listener returned it
prints exactly `HTTP server has been shutdown` and a newline, creates a router,
and calls `ListenAndServe` on `:8080` with that router, which is the fresh
router with the two registrations `/` to `getRoot` and `/hello` to `getHello`
and nothing else. -/
theorem clean_shutdown_restarts (first second : ListenResult)
    (hclosed : errors.Is first.err http.ErrServerClosed = true) :
    ∃ mux : ServeMux,
      (ServeMux.zero.HandleFunc "/" Handler.getRoot).bind
        (fun m => m.HandleFunc "/hello" Handler.getHello) = some mux ∧
      mux.m.lookup "/" = some { h := Handler.getRoot, pattern := "/" } ∧
      mux.m.lookup "/hello" = some { h := Handler.getHello, pattern := "/hello" } ∧
      mux.m.length = 2 ∧
      runMain first second = Result.ok () (runMain first second).world ∧
      afterFirstReturn (runMain first second).world.trace =
        Event.stdout "HTTP server has been shutdown\n" :: Event.newServeMux ::
          (http.ListenAndServe ":8080" (some mux) second World.init).world.trace ∧
      listenCalls (runMain first second).world.trace =
        [(":8080", none), (":8080", some mux)] := by
  have hrun : runMain first second = Result.ok ()
      { DefaultServeMux := routes, trace := (firstTrace first ++
        Event.stdout "HTTP server has been shutdown\n" :: secondTrace second) } := by
    rw [runMain_eq]
    simp [hclosed]
  refine ⟨routes, by decide, by decide, by decide, by decide, ?_, ?_, ?_⟩
  · rw [hrun]; rfl
  · rw [hrun]
    simp [Result.world, afterFirstReturn_firstTrace, secondTrace, listenAndServe_eq, resolve,
      World.init]
  · rw [listenCalls_run]
    simp [hclosed]

/-- Witness for C5: the first listener is closed after one request. -/
theorem clean_shutdown_restarts_witness :
    errors.Is http.ErrServerClosed http.ErrServerClosed = true ∧
    ∃ mux : ServeMux,
      (ServeMux.zero.HandleFunc "/" Handler.getRoot).bind
        (fun m => m.HandleFunc "/hello" Handler.getHello) = some mux ∧
      mux.m.lookup "/" = some { h := Handler.getRoot, pattern := "/" } ∧
      mux.m.lookup "/hello" = some { h := Handler.getHello, pattern := "/hello" } ∧
      mux.m.length = 2 ∧
      runMain { requests := [sampleGetRoot], err := http.ErrServerClosed }
          { requests := [], err := some sampleBindError } =
        Result.ok () (runMain { requests := [sampleGetRoot], err := http.ErrServerClosed }
          { requests := [], err := some sampleBindError }).world ∧
      afterFirstReturn (runMain { requests := [sampleGetRoot], err := http.ErrServerClosed }
          { requests := [], err := some sampleBindError }).world.trace =
        Event.stdout "HTTP server has been shutdown\n" :: Event.newServeMux ::
          (http.ListenAndServe ":8080" (some mux)
            { requests := [], err := some sampleBindError } World.init).world.trace ∧
      listenCalls (runMain { requests := [sampleGetRoot], err := http.ErrServerClosed }
          { requests := [], err := some sampleBindError }).world.trace =
        [(":8080", none), (":8080", some mux)] :=
  ⟨by decide,
    clean_shutdown_restarts { requests := [sampleGetRoot], err := http.ErrServerClosed }
      { requests := [], err := some sampleBindError } (by decide)⟩

theorem second_listener_cases (first second : ListenResult) :
    (∃ mux, (":8080", some mux) ∈ listenCalls (runMain first second).world.trace) ↔
      (first.err = none ∨ errors.Is first.err http.ErrServerClosed = true) := by
  rw [listenCalls_run]
  by_cases h1 : errors.Is first.err http.ErrServerClosed = true
  · simp [h1]
  · by_cases h2 : first.err = none
    · simp [h1, h2]
    · simp [h1, h2]

theorem secondTrace_split (second : ListenResult) :
    ∃ pre, ∀ e : error,
      secondTrace { requests := second.requests, err := e } = pre ++ [Event.returned e] :=
  ⟨Event.newServeMux :: Event.listen ":8080" (some routes) ::
      serveTrace routes second.requests, fun e => by simp [secondTrace]⟩

theorem stdoutWrites_returned (pre : List Event) (e : error) :
    stdoutWrites (pre ++ [Event.returned e]) = stdoutWrites pre := by
  simp [stdoutWrites_append, stdoutWrites]

/-- C6: for every result the first `ListenAndServe` can return (it always
returns a non-nil error), `main` reaches the second `ListenAndServe` call if
and only if that result is the clean-shutdown error; and in that case the
confirmation line is printed after the first call and before the second. -/
theorem second_listener_iff_clean_shutdown (first second : ListenResult)
    (hnonnil : first.err ≠ none) :
    ((∃ mux, (":8080", some mux) ∈ listenCalls (runMain first second).world.trace) ↔
      errors.Is first.err http.ErrServerClosed = true) ∧
    (errors.Is first.err http.ErrServerClosed = true →
      ∃ pre post mux, (runMain first second).world.trace =
          pre ++ Event.stdout "HTTP server has been shutdown\n" :: post ∧
        listenCalls pre = [(":8080", none)] ∧
        listenCalls post = [(":8080", some mux)]) := by
  constructor
  · rw [second_listener_cases first second]
    constructor
    · rintro (h | h)
      · exact absurd h hnonnil
      · exact h
    · exact fun h => Or.inr h
  · intro hclosed
    refine ⟨firstTrace first, secondTrace second, routes, ?_, ?_, ?_⟩
    · rw [runMain_eq]
      simp [hclosed, Result.world]
    · simp [firstTrace, listenCalls, listenCalls_append,
        listenCalls_serving _ (serveTrace_serving routes first.requests)]
    · simp [secondTrace, listenCalls, listenCalls_append,
        listenCalls_serving _ (serveTrace_serving routes second.requests)]

/-- Witness for C6: after a clean shutdown the second listener is reached;
after a bind error it is not. -/
theorem second_listener_iff_clean_shutdown_witness :
    (http.ErrServerClosed ≠ none ∧
      ((∃ mux, (":8080", some mux) ∈
          listenCalls (runMain { requests := [sampleGetRoot], err := http.ErrServerClosed }
            { requests := [], err := some sampleBindError }).world.trace) ↔
        errors.Is http.ErrServerClosed http.ErrServerClosed = true)) ∧
    ((some sampleBindError : error) ≠ none ∧
      ((∃ mux, (":8080", some mux) ∈
          listenCalls (runMain { requests := [], err := some sampleBindError }
            { requests := [], err := some sampleBindError }).world.trace) ↔
        errors.Is (some sampleBindError) http.ErrServerClosed = true)) :=
  ⟨⟨by decide,
      (second_listener_iff_clean_shutdown
        { requests := [sampleGetRoot], err := http.ErrServerClosed }
        { requests := [], err := some sampleBindError } (by decide)).1⟩,
    ⟨by decide,
      (second_listener_iff_clean_shutdown { requests := [], err := some sampleBindError }
        { requests := [], err := some sampleBindError } (by decide)).1⟩⟩

/-- C7: when `main` has started the second listener, whatever value the second
`ListenAndServe` returns, `main` returns normally (exit status 0, no
`os.Exit`): the return of the listener is the last event of the run, so nothing
is printed after it, and two runs that differ only in that value have the same
events before it, the same output and the same default router. -/
theorem second_result_discarded (first : ListenResult) (reqs : List Request) (e1 e2 : error)
    (hreach : ∃ mux, (":8080", some mux) ∈
      listenCalls (runMain first { requests := reqs, err := e1 }).world.trace) :
    runMain first { requests := reqs, err := e1 } =
      Result.ok () (runMain first { requests := reqs, err := e1 }).world ∧
    exitStatus (runMain first { requests := reqs, err := e1 }) = 0 ∧
    exitStatus (runMain first { requests := reqs, err := e2 }) = 0 ∧
    (∃ pre,
      (runMain first { requests := reqs, err := e1 }).world.trace = pre ++ [Event.returned e1] ∧
      (runMain first { requests := reqs, err := e2 }).world.trace =
        pre ++ [Event.returned e2]) ∧
    stdoutWrites (runMain first { requests := reqs, err := e1 }).world.trace =
      stdoutWrites (runMain first { requests := reqs, err := e2 }).world.trace ∧
    (runMain first { requests := reqs, err := e1 }).world.DefaultServeMux =
      (runMain first { requests := reqs, err := e2 }).world.DefaultServeMux := by
  have hcase : first.err = none ∨ errors.Is first.err http.ErrServerClosed = true :=
    (second_listener_cases first _).1 hreach
  obtain ⟨pre, hpre⟩ := secondTrace_split { requests := reqs, err := e1 }
  have hnil : errors.Is none http.ErrServerClosed = false := rfl
  have hex : ∀ e : error, exitStatus (runMain first { requests := reqs, err := e }) = 0 := by
    intro e
    rw [exitStatus_run]
    rcases hcase with h | h
    · simp [h]
    · simp [h]
  have htr : ∃ pre1, ∀ e : error,
      (runMain first { requests := reqs, err := e }).world.trace =
        pre1 ++ [Event.returned e] := by
    by_cases h1 : errors.Is first.err http.ErrServerClosed = true
    · refine ⟨firstTrace first ++ Event.stdout "HTTP server has been shutdown\n" :: pre, ?_⟩
      intro e
      rw [runMain_eq]
      simp [h1, Result.world, hpre e]
    · have h2 : first.err = none := by
        rcases hcase with h | h
        · exact h
        · exact absurd h h1
      refine ⟨firstTrace first ++ pre, ?_⟩
      intro e
      rw [runMain_eq]
      simp [h2, hnil, Result.world, hpre e]
  obtain ⟨pre1, hpre1⟩ := htr
  refine ⟨?_, hex e1, hex e2, ⟨pre1, hpre1 e1, hpre1 e2⟩, ?_, ?_⟩
  · rw [runMain_eq]
    rcases hcase with h | h
    · by_cases h1 : errors.Is first.err http.ErrServerClosed = true
      · simp [h1, Result.world]
      · simp [h, hnil, Result.world]
    · simp [h, Result.world]
  · rw [hpre1 e1, hpre1 e2, stdoutWrites_returned, stdoutWrites_returned]
  · rw [routers_run, routers_run]

/-- Witness for C7: after a clean shutdown the second listener fails to bind. -/
theorem second_result_discarded_witness :
    (∃ mux, (":8080", some mux) ∈
      listenCalls (runMain { requests := [], err := http.ErrServerClosed }
        { requests := [], err := some sampleBindError }).world.trace) ∧
    exitStatus (runMain { requests := [], err := http.ErrServerClosed }
      { requests := [], err := some sampleBindError }) = 0 ∧
    stdoutWrites (runMain { requests := [], err := http.ErrServerClosed }
      { requests := [], err := some sampleBindError }).world.trace =
      stdoutWrites (runMain { requests := [], err := http.ErrServerClosed }
        { requests := [], err := none }).world.trace :=
  ⟨⟨routes, by decide⟩,
    (second_result_discarded { requests := [], err := http.ErrServerClosed } []
      (some sampleBindError) none ⟨routes, by decide⟩).2.1,
    (second_result_discarded { requests := [], err := http.ErrServerClosed } []
      (some sampleBindError) none ⟨routes, by decide⟩).2.2.2.2.1⟩

/-! ## The two routers -/

/-- C8: the default router and the router handed to the second listener are
equivalent. In every run in which `ListenAndServe` is called with an explicit
router, that router equals the default router: both hold exactly the bindings
`/` to `getRoot` and `/hello` to `getHello`, both select the same handler for
every request, and serving a request with either gives the same result. -/
theorem routers_equivalent (first second : ListenResult) (addr : String) (mux : ServeMux)
    (hmem : (addr, some mux) ∈ listenCalls (runMain first second).world.trace) :
    mux = (runMain first second).world.DefaultServeMux ∧
    (∀ p, mux.m.lookup p =
      if p = "/hello" then some { h := Handler.getHello, pattern := "/hello" }
      else if p = "/" then some { h := Handler.getRoot, pattern := "/" }
      else none) ∧
    (∀ p, (runMain first second).world.DefaultServeMux.m.lookup p =
      if p = "/hello" then some { h := Handler.getHello, pattern := "/hello" }
      else if p = "/" then some { h := Handler.getRoot, pattern := "/" }
      else none) ∧
    (∀ r, mux.Handler r = (runMain first second).world.DefaultServeMux.Handler r) ∧
    (∀ r g, g.DefaultServeMux = (runMain first second).world.DefaultServeMux →
      serverHandler (some mux) r g = serverHandler none r g) := by
  have hm : mux = routes := (listened_router first second addr mux hmem).1
  rw [routers_run, hm]
  refine ⟨rfl, routes_lookup, routes_lookup, fun _ => rfl, ?_⟩
  intro r g hg
  rw [serverHandler_eq, serverHandler_eq]
  simp [resolve, hg]

/-- Witness for C8: a run with a clean shutdown of the first listener. -/
theorem routers_equivalent_witness :
    (":8080", some routes) ∈
      listenCalls (runMain { requests := [sampleGetRoot], err := http.ErrServerClosed }
        { requests := [samplePostHello], err := none }).world.trace ∧
    routes = (runMain { requests := [sampleGetRoot], err := http.ErrServerClosed }
      { requests := [samplePostHello], err := none }).world.DefaultServeMux :=
  ⟨by decide,
    (routers_equivalent { requests := [sampleGetRoot], err := http.ErrServerClosed }
      { requests := [samplePostHello], err := none } ":8080" routes (by decide)).1⟩

/-- C10: the route table is never modified after the registrations, and the
handlers keep no state. The default router at the end of any run holds exactly
the two bindings, the same as in the run that serves no request; `getRoot` and
`getHello` leave the default router as it is; and from any world, serving any
list of requests with any handler argument ends normally with the default
router unchanged, after which a further request produces the same events as
when it is served first. -/
theorem route_table_never_modified (first second : ListenResult) (handler : Option ServeMux)
    (rs : List Request) (r : Request) (w : ResponseWriter) (g : World) :
    (∀ p, (runMain first second).world.DefaultServeMux.m.lookup p =
      if p = "/hello" then some { h := Handler.getHello, pattern := "/hello" }
      else if p = "/" then some { h := Handler.getRoot, pattern := "/" }
      else none) ∧
    (runMain first second).world.DefaultServeMux =
      (runMain { requests := [], err := first.err }
        { requests := [], err := second.err }).world.DefaultServeMux ∧
    (getRoot w r g).world.DefaultServeMux = g.DefaultServeMux ∧
    (getHello w r g).world.DefaultServeMux = g.DefaultServeMux ∧
    ∃ g1 g2 evs,
      serveAll handler rs g = Result.ok () g1 ∧
      g1.DefaultServeMux = g.DefaultServeMux ∧
      serverHandler handler r g1 = Result.ok () g2 ∧
      g2.DefaultServeMux = g.DefaultServeMux ∧
      g2.trace = g1.trace ++ evs ∧
      (serverHandler handler r g).world.trace = g.trace ++ evs := by
  refine ⟨?_, ?_, ?_, ?_, ?_⟩
  · rw [routers_run]; exact routes_lookup
  · rw [routers_run, routers_run]
  · rfl
  · rfl
  · refine ⟨{ g with trace := g.trace ++ serveTrace (resolve handler g) rs },
      { g with trace := (g.trace ++ serveTrace (resolve handler g) rs) ++
        stepTrace (resolve handler g) r },
      stepTrace (resolve handler g) r, serveAll_eq handler rs g, rfl, ?_, rfl, rfl, ?_⟩
    · rw [serverHandler_eq]
      cases handler <;> rfl
    · rw [serverHandler_eq]
      rfl

end HttpServer
